import Mathlib

/-!
# Verification of the CBAM pipeline (classifier / extractor / serializer)

Shallow embedding of the three agents of the repository
(`backend/app/agents/serializer_agent.py`, `classifier_agent.py`,
`extractor_agent.py`) and proofs about the claims of the specification.

Modelling conventions:
* Python `float` values are modelled as exact rationals (`ℚ`); decimal
  literals of the source are taken at their decimal value.
* Python strings are modelled as `String` (a list of characters); string
  operations (`lower`, `strip`, `in`, slicing, `startswith`, `ljust`) are
  modelled on the character list, restricted to ASCII behaviour.
* The lxml element tree is modelled by the inductive type `Xml`; building
  an element with the `ElementMaker` corresponds to `Xml.elem`.
* `None` is modelled by `Option.none`; Python truthiness of an optional
  string / float (`if x:`) is modelled by explicit emptiness / zero tests.
* In-place mutation of the report by `generate_xml` (it only calls
  `calculate_totals`, which reassigns the three total fields) is modelled
  by returning the updated report next to the generated tree.
-/

/-! ## Shared string helpers (ASCII model of the Python string methods) -/

/-- Python whitespace characters (ASCII model of `str.strip` / `\s`). -/
def isWsC (c : Char) : Bool :=
  c == ' ' || c == '\t' || c == '\n' || c == '\r' || c == '\x0b' || c == '\x0c'

/-- ASCII letter test (model of `str.isalpha` restricted to ASCII). -/
def isAsciiAlphaC (c : Char) : Bool :=
  ('a' ≤ c && c ≤ 'z') || ('A' ≤ c && c ≤ 'Z')

/-- Model of Python `str.strip()`: drop whitespace on both ends. -/
def pyStrip (l : List Char) : List Char :=
  ((l.dropWhile isWsC).reverse.dropWhile isWsC).reverse

/-- Model of the Python substring test `pat in s`.
`isSubList [] s = true`, as in Python (`"" in s` is `True`). -/
def isSubList : List Char → List Char → Bool
  | pat, [] => pat.isEmpty
  | pat, l@(_ :: t) => pat.isPrefixOf l || isSubList pat t

/-- Python slice `s[a:b]`. -/
def pySlice (s : String) (a b : Nat) : String := ⟨(s.data.drop a).take (b - a)⟩

/-- Python slice `s[a:]`. -/
def pySliceFrom (s : String) (a : Nat) : String := ⟨s.data.drop a⟩

/-- Truthiness of an optional string (`if x:` on `Optional[str]`). -/
def strTruthy : Option String → Bool
  | none => false
  | some s => !s.data.isEmpty

/-- Truthiness of an optional float (`if x:` on `Optional[float]`). -/
def ratTruthy : Option ℚ → Bool
  | none => false
  | some v => !(v == 0)

/-! ## Decimal formatting (model of Python `f"{value:.Nf}"`)

Python formats the value with `N` digits after the decimal point, rounding
ties to even. -/

/-- Round a rational to the nearest integer, ties to even
(Python / IEEE rounding used by `format` and `round`). -/
def roundHalfEven (q : ℚ) : ℤ :=
  let f := ⌊q⌋
  let r := q - (f : ℚ)
  if r < 1/2 then f
  else if (1:ℚ)/2 < r then f + 1
  else if f % 2 = 0 then f else f + 1

/-- Left-pad a digit string with zeros to the given width. -/
def padZeros (s : String) (n : Nat) : String :=
  ⟨List.replicate (n - s.data.length) '0' ++ s.data⟩

/-- `SerializerAgent._format_decimal`: render with `precision` digits after
the decimal point (model of `f"{value:.{precision}f}"`). -/
def format_decimal (value : ℚ) (precision : Nat) : String :=
  let m := roundHalfEven (value * (10 : ℚ) ^ precision)
  let sign := if m < 0 then "-" else ""
  let a := m.natAbs
  if precision = 0 then sign ++ toString a
  else sign ++ toString (a / 10 ^ precision) ++ "." ++
    padZeros (toString (a % 10 ^ precision)) precision

/-! ## Serializer data model (`serializer_agent.py`) -/

/-- `CBAMCategory` enumeration (shared by serializer and classifier). -/
inductive CBAMCategory where
  | cement | iron_steel | aluminium | fertilizers | hydrogen | electricity
deriving DecidableEq

/-- String value of a `CBAMCategory` member. -/
def CBAMCategory.value : CBAMCategory → String
  | .cement => "cement"
  | .iron_steel => "iron_steel"
  | .aluminium => "aluminium"
  | .fertilizers => "fertilizers"
  | .hydrogen => "hydrogen"
  | .electricity => "electricity"

/-- `CalculationMethod` enumeration. -/
inductive CalculationMethod where
  | actual | default_value | estimate | verified
deriving DecidableEq

/-- String value of a `CalculationMethod` member. -/
def CalculationMethod.value : CalculationMethod → String
  | .actual => "actual"
  | .default_value => "default_value"
  | .estimate => "estimate"
  | .verified => "verified"

/-- `ReportType` enumeration. -/
inductive ReportType where
  | quarterly | amendment | correction
deriving DecidableEq

/-- String value of a `ReportType` member. -/
def ReportType.value : ReportType → String
  | .quarterly => "quarterly"
  | .amendment => "amendment"
  | .correction => "correction"

/-- `Address` dataclass. -/
structure Address where
  street : String
  city : String
  postal_code : String
  country : String
  building_number : Option String := none
  additional_info : Option String := none
deriving DecidableEq

/-- `Declarant` dataclass. -/
structure Declarant where
  eori_number : String
  name : String
  address : Address
  contact_email : Option String := none
  contact_phone : Option String := none
  representative_eori : Option String := none
deriving DecidableEq

/-- `Producer` dataclass. -/
structure Producer where
  installation_id : String
  name : String
  country : String
  address : Option String := none
  is_verified : Bool := false
  verification_body : Option String := none
deriving DecidableEq

/-- `EmissionData` dataclass. The `total_emissions_tco2` field is set by
`__post_init__` to `direct + indirect`; it is modelled as the derived
function `EmissionData.total_emissions_tco2` below. -/
structure EmissionData where
  direct_emissions_tco2 : ℚ
  indirect_emissions_tco2 : ℚ
  specific_direct_emissions : ℚ := 0
  specific_indirect_emissions : ℚ := 0
  electricity_consumption_mwh : Option ℚ := none
  electricity_emission_factor : Option ℚ := none
  calculation_method : CalculationMethod := .actual
  data_source : Option String := none
  verification_status : Option String := none
deriving DecidableEq

/-- `__post_init__` invariant: total emissions of an item. -/
def EmissionData.total_emissions_tco2 (e : EmissionData) : ℚ :=
  e.direct_emissions_tco2 + e.indirect_emissions_tco2

/-- `GoodsItem` dataclass. It is recursive through `precursor_goods`,
hence an inductive type with explicit projections. Field order follows
the source. -/
inductive GoodsItem where
  | mk
    (item_number : ℤ)
    (cn_code : String)
    (cn_description : String)
    (cbam_category : CBAMCategory)
    (quantity : ℚ)
    (unit : String)
    (country_of_origin : String)
    (producer : Producer)
    (emissions : EmissionData)
    (inward_processing : Bool)
    (carbon_price_paid : Option ℚ)
    (carbon_price_currency : String)
    (supplementary_info : Option String)
    (precursor_goods : List GoodsItem)

/-- Projection: emissions of a goods item. -/
def GoodsItem.emissions : GoodsItem → EmissionData
  | .mk _ _ _ _ _ _ _ _ em _ _ _ _ _ => em

/-- Projection: precursor goods list of a goods item. -/
def GoodsItem.precursor_goods : GoodsItem → List GoodsItem
  | .mk _ _ _ _ _ _ _ _ _ _ _ _ _ ps => ps

/-- Replace the `precursor_goods` field of a goods item. -/
def GoodsItem.withPrecursors : GoodsItem → List GoodsItem → GoodsItem
  | .mk a b c d e f g h i j k l m _, ps => .mk a b c d e f g h i j k l m ps

/-- `CBAMReport` dataclass. -/
structure CBAMReport where
  report_id : String
  reporting_period_year : ℤ
  reporting_period_quarter : ℤ
  declarant : Declarant
  goods : List GoodsItem := []
  report_type : ReportType := .quarterly
  submission_date : Option String := none
  is_amendment : Bool := false
  original_report_id : Option String := none
  amendment_reason : Option String := none
  total_direct_emissions : ℚ := 0
  total_indirect_emissions : ℚ := 0
  total_emissions : ℚ := 0

/-- Sum of the direct emissions of a goods list (top level only). -/
def sum_direct (gs : List GoodsItem) : ℚ :=
  (gs.map (fun g => g.emissions.direct_emissions_tco2)).sum

/-- Sum of the indirect emissions of a goods list (top level only). -/
def sum_indirect (gs : List GoodsItem) : ℚ :=
  (gs.map (fun g => g.emissions.indirect_emissions_tco2)).sum

/-- `CBAMReport.calculate_totals`: recompute the three aggregate totals
from the (top-level) goods list.  The Python method mutates `self`; the
model returns the updated report. -/
def calculate_totals (r : CBAMReport) : CBAMReport :=
  { r with
    total_direct_emissions := sum_direct r.goods
    total_indirect_emissions := sum_indirect r.goods
    total_emissions := sum_direct r.goods + sum_indirect r.goods }

/-! ## XML tree model -/

/-- Model of an lxml element tree: text nodes and elements with
attributes and children. -/
inductive Xml where
  | text (s : String)
  | elem (tag : String) (attrs : List (String × String)) (children : List Xml)

/-- Children of an XML node. -/
def Xml.children : Xml → List Xml
  | .text _ => []
  | .elem _ _ cs => cs

/-- Shorthand for an element without attributes (`E.Tag(...)`). -/
def el (tag : String) (children : List Xml) : Xml := .elem tag [] children

/-- Shorthand for a text node. -/
def tx (s : String) : Xml := .text s

/-! ## Serializer (`SerializerAgent`) -/

/-- `SerializerAgent._format_cn_code`: strip spaces and periods, truncate
to 8 characters, right-pad with `'0'` (`code.replace(" ", "").replace(".",
"")[:8].ljust(8, "0")`). -/
def format_cn_code (code : String) : String :=
  let cleaned := (code.data.filter (fun c => !(c == ' ' || c == '.'))).take 8
  ⟨cleaned ++ List.replicate (8 - cleaned.length) '0'⟩

/-- `SerializerAgent._format_date`: ISO string of the date, defaulting to
`date.today()` (passed in as `today`, since the model is pure). -/
def format_date (today : String) (d : Option String) : String := d.getD today

/-- `SerializerAgent._build_header`. -/
def build_header (today : String) (report : CBAMReport) : Xml :=
  el "Header" (
    [ el "ReportId" [tx report.report_id],
      el "ReportType" [tx report.report_type.value],
      el "ReportingPeriod"
        [ el "Year" [tx (toString report.reporting_period_year)],
          el "Quarter" [tx (toString report.reporting_period_quarter)] ],
      el "SubmissionDate" [tx (format_date today report.submission_date)],
      el "IsAmendment" [tx (if report.is_amendment then "true" else "false")] ]
    ++ (if report.is_amendment && strTruthy report.original_report_id then
          [ el "OriginalReportReference"
              [tx (report.original_report_id.getD "")] ]
          ++ (if strTruthy report.amendment_reason then
                [el "AmendmentReason" [tx (report.amendment_reason.getD "")]]
              else [])
        else []))

/-- `SerializerAgent._build_declarant`. -/
def build_declarant (declarant : Declarant) : Xml :=
  let addr := el "Address" (
    [el "Street" [tx declarant.address.street]]
    ++ (if strTruthy declarant.address.building_number then
          [el "BuildingNumber" [tx (declarant.address.building_number.getD "")]]
        else [])
    ++ [ el "City" [tx declarant.address.city],
         el "PostalCode" [tx declarant.address.postal_code],
         el "Country" [tx declarant.address.country] ])
  el "Declarant" (
    [ el "EORINumber" [tx declarant.eori_number],
      el "Name" [tx declarant.name],
      addr ]
    ++ (if strTruthy declarant.contact_email then
          [el "ContactEmail" [tx (declarant.contact_email.getD "")]] else [])
    ++ (if strTruthy declarant.contact_phone then
          [el "ContactPhone" [tx (declarant.contact_phone.getD "")]] else [])
    ++ (if strTruthy declarant.representative_eori then
          [el "RepresentativeEORI" [tx (declarant.representative_eori.getD "")]]
        else []))

/-- `SerializerAgent._build_producer`. -/
def build_producer (producer : Producer) : Xml :=
  el "Producer" (
    [ el "InstallationId" [tx producer.installation_id],
      el "Name" [tx producer.name],
      el "Country" [tx producer.country] ]
    ++ (if strTruthy producer.address then
          [el "Address" [tx (producer.address.getD "")]] else [])
    ++ (if producer.is_verified then
          [el "IsVerified" [tx "true"]]
          ++ (if strTruthy producer.verification_body then
                [el "VerificationBody" [tx (producer.verification_body.getD "")]]
              else [])
        else []))

/-- `SerializerAgent._build_emissions`. -/
def build_emissions (emissions : EmissionData) : Xml :=
  el "Emissions" (
    [ el "DirectEmissions"
        [ el "Value" [tx (format_decimal emissions.direct_emissions_tco2 6)],
          el "Unit" [tx "tCO2"] ],
      el "IndirectEmissions"
        [ el "Value" [tx (format_decimal emissions.indirect_emissions_tco2 6)],
          el "Unit" [tx "tCO2"] ],
      el "TotalEmissions"
        [ el "Value" [tx (format_decimal emissions.total_emissions_tco2 6)],
          el "Unit" [tx "tCO2"] ],
      el "CalculationMethod" [tx emissions.calculation_method.value] ]
    ++ (if 0 < emissions.specific_direct_emissions then
          [ el "SpecificDirectEmissions"
              [ el "Value" [tx (format_decimal emissions.specific_direct_emissions 4)],
                el "Unit" [tx "tCO2/t"] ] ]
        else [])
    ++ (if ratTruthy emissions.electricity_consumption_mwh then
          [ el "ElectricityConsumption"
              [ el "Value" [tx (format_decimal (emissions.electricity_consumption_mwh.getD 0) 3)],
                el "Unit" [tx "MWh"] ] ]
        else [])
    ++ (if ratTruthy emissions.electricity_emission_factor then
          [ el "ElectricityEmissionFactor"
              [ el "Value" [tx (format_decimal (emissions.electricity_emission_factor.getD 0) 4)],
                el "Unit" [tx "tCO2/MWh"] ] ]
        else [])
    ++ (if strTruthy emissions.data_source then
          [el "DataSource" [tx (emissions.data_source.getD "")]] else []))

mutual

/-- `SerializerAgent._build_goods_item` (recursive through
`PrecursorGoods`). -/
def build_goods_item : GoodsItem → Xml
  | .mk item_number cn_code cn_description cbam_category quantity unit
      country_of_origin producer emissions inward_processing carbon_price_paid
      carbon_price_currency supplementary_info precursor_goods =>
    Xml.elem "Goods" [] (
      [ el "ItemNumber" [tx (toString item_number)],
        el "CNCommodityCode" [tx (format_cn_code cn_code)],
        el "CommodityDescription" [tx cn_description],
        el "CBAMCategory" [tx cbam_category.value],
        el "Quantity"
          [ el "Value" [tx (format_decimal quantity 3)],
            el "Unit" [tx unit] ],
        el "CountryOfOrigin" [tx country_of_origin],
        build_producer producer,
        build_emissions emissions ]
      ++ (if inward_processing then [el "InwardProcessing" [tx "true"]] else [])
      ++ (match carbon_price_paid with
          | some amt =>
            [ el "CarbonPricePaid"
                [ el "Amount" [tx (format_decimal amt 2)],
                  el "Currency" [tx carbon_price_currency] ] ]
          | none => [])
      ++ (if strTruthy supplementary_info then
            [el "SupplementaryInfo" [tx (supplementary_info.getD "")]] else [])
      ++ (match precursor_goods with
          | [] => []
          | ps@(_ :: _) => [Xml.elem "PrecursorGoods" [] (build_goods_items ps)]))

/-- The goods elements of a goods list, in order. -/
def build_goods_items : List GoodsItem → List Xml
  | [] => []
  | g :: gs => build_goods_item g :: build_goods_items gs

end

/-- `SerializerAgent._build_goods_list`. -/
def build_goods_list (goods : List GoodsItem) : Xml :=
  Xml.elem "GoodsList" [] (build_goods_items goods)

/-- `SerializerAgent._build_summary`. -/
def build_summary (report : CBAMReport) : Xml :=
  el "Summary"
    [ el "TotalGoodsItems" [tx (toString report.goods.length)],
      el "TotalDirectEmissions"
        [ el "Value" [tx (format_decimal report.total_direct_emissions 6)],
          el "Unit" [tx "tCO2"] ],
      el "TotalIndirectEmissions"
        [ el "Value" [tx (format_decimal report.total_indirect_emissions 6)],
          el "Unit" [tx "tCO2"] ],
      el "TotalEmissions"
        [ el "Value" [tx (format_decimal report.total_emissions 6)],
          el "Unit" [tx "tCO2"] ] ]

/-- `SerializerAgent.generate_xml`: recompute totals, then build the
`QReport` tree.  The second component is the state of the (mutated) report
after the call; the only mutation in the source is `calculate_totals`. -/
def generate_xml (today : String) (report : CBAMReport) : Xml × CBAMReport :=
  let report1 := calculate_totals report
  (Xml.elem "QReport"
      [("xsi:schemaLocation", "urn:eu:ec:cbam:qreport:v2300 QReport_ver23.00.xsd")]
      [ build_header today report1,
        build_declarant report1.declarant,
        build_goods_list report1.goods,
        build_summary report1 ],
    report1)

/-! ## Extractor: unit conversion and country normalization
(`extractor_agent.py`, class `UnitConverter`) -/

/-- `UnitConverter.ENERGY_TO_KWH` (floats as exact decimals). -/
def ENERGY_TO_KWH : List (String × ℚ) :=
  [ ("kwh", 1), ("kw/h", 1), ("kw-h", 1),
    ("mwh", 1000), ("mw/h", 1000), ("mw-h", 1000),
    ("gwh", 1000000), ("gw/h", 1000000),
    ("wh", 1/1000),
    ("j", 1/3600000), ("joule", 1/3600000),
    ("kj", 1/3600), ("kilojoule", 1/3600),
    ("mj", 1/(36/10)), ("megajoule", 1/(36/10)),
    ("gj", 1000/(36/10)), ("gigajoule", 1000/(36/10)),
    ("btu", 293071/1000000000),
    ("therm", 293071/10000) ]

/-- `UnitConverter.COUNTRY_TO_ISO` (insertion order preserved). -/
def COUNTRY_TO_ISO : List (String × String) :=
  [ ("india", "IN"), ("indian", "IN"), ("bharat", "IN"),
    ("china", "CN"), ("chinese", "CN"), ("prc", "CN"),
    ("germany", "DE"), ("german", "DE"), ("deutschland", "DE"),
    ("usa", "US"), ("united states", "US"), ("america", "US"), ("american", "US"),
    ("uk", "GB"), ("united kingdom", "GB"), ("britain", "GB"), ("british", "GB"),
    ("france", "FR"), ("french", "FR"),
    ("italy", "IT"), ("italian", "IT"),
    ("spain", "ES"), ("spanish", "ES"),
    ("japan", "JP"), ("japanese", "JP"),
    ("korea", "KR"), ("south korea", "KR"), ("korean", "KR"),
    ("brazil", "BR"), ("brazilian", "BR"),
    ("russia", "RU"), ("russian", "RU"),
    ("turkey", "TR"), ("turkish", "TR"), ("turkiye", "TR"),
    ("vietnam", "VN"), ("vietnamese", "VN"),
    ("indonesia", "ID"), ("indonesian", "ID"),
    ("malaysia", "MY"), ("malaysian", "MY"),
    ("thailand", "TH"), ("thai", "TH"),
    ("uae", "AE"), ("emirates", "AE"), ("dubai", "AE"),
    ("saudi", "SA"), ("saudi arabia", "SA") ]

/-- `UnitConverter.to_kwh`: convert an energy value to kWh; unknown units
fall back to multiplier `1.0`. -/
def to_kwh (value : ℚ) (unit : List Char) : ℚ :=
  let unit_lower := (pyStrip (unit.map Char.toLower)).filter (fun c => !(c == ' '))
  value * (((ENERGY_TO_KWH.find? (fun p => p.1.data == unit_lower)).map (·.2)).getD 1)

/-- `UnitConverter.to_mwh`. -/
def to_mwh (kwh_value : ℚ) : ℚ := kwh_value / 1000

/-- `UnitConverter.normalize_country`, modelled on the character list:
empty input returns `""`; a stripped-lowercased 2-letter alphabetic input
is upper-cased; otherwise the first table entry whose name contains or is
contained in the input wins; otherwise the first two characters of the
*original* input upper-cased, or `"XX"` for length-1 input. -/
def normalize_country (country_text : List Char) : List Char :=
  if country_text.isEmpty then [] else
  let text_lower := pyStrip (country_text.map Char.toLower)
  if text_lower.length = 2 && text_lower.all isAsciiAlphaC then
    text_lower.map Char.toUpper
  else
    match COUNTRY_TO_ISO.find?
        (fun nc => isSubList nc.1.data text_lower || isSubList text_lower nc.1.data) with
    | some nc => nc.2.data
    | none =>
      if 2 ≤ country_text.length then (country_text.take 2).map Char.toUpper
      else ['X', 'X']

/-! ## Extractor: regex engine

Model of the Python `re` semantics used by `ExtractionPatterns`:
leftmost-first matching with ordered alternation, greedy quantifiers and
backtracking.  `re.IGNORECASE` is modelled by lowercasing the text and
writing the patterns in lowercase (the patterns involved only contain
case-insensitive-stable classes and lowercase literals).

A pattern element is a backtracking matcher in continuation-passing
style: alternatives are tried in Python's preference order (alternation
left first, greedy quantifiers longest first, `?` with the operand
present first), and the continuation is called on each candidate
`(suffix, captures)` until it succeeds, so the overall result is
Python's preferred match. -/

/-- Captured groups of a match attempt: group number to captured text. -/
abbrev Caps := List (Nat × List Char)

/-- Result of a match attempt: the suffix after the match and the
captured groups, or `none`. -/
abbrev MRes := Option (List Char × Caps)

/-- A backtracking regex matcher in continuation-passing style. -/
abbrev Matcher := List Char → Caps → (List Char → Caps → MRes) → MRes

/-- The empty pattern. -/
def mEps : Matcher := fun s g k => k s g

/-- A literal character. -/
def mLit (c : Char) : Matcher := fun s g k =>
  match s with
  | [] => none
  | a :: rest => if a = c then k rest g else none

/-- A character class. -/
def mCls (p : Char → Bool) : Matcher := fun s g k =>
  match s with
  | [] => none
  | a :: rest => if p a then k rest g else none

/-- Concatenation. -/
def mCat (a b : Matcher) : Matcher := fun s g k => a s g (fun s1 g1 => b s1 g1 k)

/-- Ordered alternation `a|b` (left preferred, as in Python). -/
def mAlt (a b : Matcher) : Matcher := fun s g k =>
  match a s g k with
  | some x => some x
  | none => b s g k

/-- The never-matching pattern (base of an alternation list). -/
def mFail : Matcher := fun _ _ _ => none

/-- Greedy `r?` (operand present preferred). -/
def mOpt (r : Matcher) : Matcher := fun s g k =>
  match r s g k with
  | some x => some x
  | none => k s g

/-- Greedy split points for a class quantifier: remaining suffixes after
consuming the maximal run, then shorter runs (longest first). -/
def starSplits (p : Char → Bool) (s : List Char) : List (List Char) :=
  let n := (s.takeWhile p).length
  (List.range (n + 1)).map (fun j => s.drop (n - j))

/-- Greedy `[class]*`. -/
def mStarCls (p : Char → Bool) : Matcher := fun s g k =>
  (starSplits p s).findSome? (fun s1 => k s1 g)

/-- Greedy `[class]+`. -/
def mPlusCls (p : Char → Bool) : Matcher := fun s g k =>
  match s with
  | [] => none
  | a :: rest => if p a then (starSplits p rest).findSome? (fun s1 => k s1 g) else none

/-- Capture group `(r)` numbered `n`. -/
def mGrp (n : Nat) (r : Matcher) : Matcher := fun s g k =>
  r s g (fun s1 g1 => k s1 (g1 ++ [(n, s.take (s.length - s1.length))]))

/-- Literal string pattern. -/
def mStr (str : String) : Matcher := str.data.foldr (fun c r => mCat (mLit c) r) mEps

/-- Ordered alternation of a list of patterns. -/
def mAlts (rs : List Matcher) : Matcher := rs.foldr mAlt mFail

/-- Ordered concatenation of a list of patterns. -/
def mCats (rs : List Matcher) : Matcher := rs.foldr mCat mEps

/-- A compiled pattern: its matcher together with the capture-group
numbers it contains, in syntactic order (used by `findall` to decide the
result shape). -/
structure Pattern where
  matcher : Matcher
  groups : List Nat

/-- An entry of the list returned by `re.findall`: a plain string when the
pattern has at most one group, a tuple of group captures otherwise. -/
inductive MatchRes where
  | str (s : List Char)
  | tup (ss : List (List Char))
deriving DecidableEq

/-- Captured text of group `n` (empty for an unparticipating group, as in
`findall`). -/
def capLookup (caps : Caps) (n : Nat) : List Char :=
  (((caps.find? (fun p => p.1 == n)).map (·.2)).getD [])

/-- The `findall` entry for one successful match. -/
def matchResOf (pat : Pattern) (caps : Caps) (whole : List Char) : MatchRes :=
  match pat.groups with
  | [] => .str whole
  | [n] => .str (capLookup caps n)
  | ns => .tup (ns.map (capLookup caps))

/-- Scanning loop of `re.findall`: leftmost matches, non-overlapping,
advancing one character on failure or on an empty match. -/
def findAllGo (pat : Pattern) : Nat → List Char → List MatchRes
  | 0, _ => []
  | fuel + 1, s =>
    match pat.matcher s [] (fun s1 g1 => some (s1, g1)) with
    | some sg =>
      let consumed := s.length - sg.1.length
      let item := matchResOf pat sg.2 (s.take consumed)
      if consumed = 0 then
        item :: (match s with | [] => [] | _ :: rest => findAllGo pat fuel rest)
      else item :: findAllGo pat fuel sg.1
    | none => match s with | [] => [] | _ :: rest => findAllGo pat fuel rest

/-- `re.findall(pattern, text)`. -/
def findAll (pat : Pattern) (s : List Char) : List MatchRes :=
  findAllGo pat (s.length + 1) s

/-- Class `\d`. -/
def isDigitC (c : Char) : Bool := c.isDigit

/-- Class `[\d,\.]`. -/
def numCharC (c : Char) : Bool := c.isDigit || c == ',' || c == '.'

/-- Class `[:\-]`. -/
def colonDashC (c : Char) : Bool := c == ':' || c == '-'

/-- `\s*`. -/
def ws0 : Matcher := mStarCls isWsC

/-- `(\d[\d,\.]*)` as group `n`. -/
def numGrp (n : Nat) : Matcher := mGrp n (mCat (mCls isDigitC) (mStarCls numCharC))

/-- `kwh?` / `mwh?` / `gwh?`-style unit literal. -/
def unitH (base : String) : Matcher := mCat (mStr base) (mOpt (mLit 'h'))

/-- `consumed?`. -/
def consumedWord : Matcher := mCat (mStr "consume") (mOpt (mLit 'd'))

/-- `ExtractionPatterns.ELECTRICITY`, pattern 1 (two capture groups):
`(?:electricity|power|energy)\s*(?:consumed?|consumption|usage)?\s*[:\-]?\s*(\d[\d,\.]*)\s*(kwh?|mwh?|gwh?)`. -/
def patElec1 : Pattern :=
  ⟨mCats
    [ mAlts [mStr "electricity", mStr "power", mStr "energy"],
      ws0, mOpt (mAlts [consumedWord, mStr "consumption", mStr "usage"]),
      ws0, mOpt (mCls colonDashC), ws0,
      numGrp 1, ws0,
      mGrp 2 (mAlts [unitH "kw", unitH "mw", unitH "gw"]) ],
   [1, 2]⟩

/-- `ExtractionPatterns.ELECTRICITY`, pattern 2 (two capture groups):
`(\d[\d,\.]*)\s*(kwh?|mwh?|gwh?)\s*(?:consumed?|consumption|usage)`. -/
def patElec2 : Pattern :=
  ⟨mCats
    [ numGrp 1, ws0,
      mGrp 2 (mAlts [unitH "kw", unitH "mw", unitH "gw"]),
      ws0, mAlts [consumedWord, mStr "consumption", mStr "usage"] ],
   [1, 2]⟩

/-- `ExtractionPatterns.ELECTRICITY`, pattern 3 (two capture groups):
`total\s*(?:units?|consumption)\s*[:\-]?\s*(\d[\d,\.]*)\s*(kwh?|mwh?)`. -/
def patElec3 : Pattern :=
  ⟨mCats
    [ mStr "total", ws0,
      mAlts [mCat (mStr "unit") (mOpt (mLit 's')), mStr "consumption"],
      ws0, mOpt (mCls colonDashC), ws0,
      numGrp 1, ws0,
      mGrp 2 (mAlts [unitH "kw", unitH "mw"]) ],
   [1, 2]⟩

/-- `ExtractionPatterns.ELECTRICITY`, pattern 4 (one capture group):
`units?\s*consumed?\s*[:\-]?\s*(\d[\d,\.]*)`. -/
def patElec4 : Pattern :=
  ⟨mCats
    [ mStr "unit", mOpt (mLit 's'), ws0,
      mStr "consume", mOpt (mLit 'd'), ws0,
      mOpt (mCls colonDashC), ws0, numGrp 1 ],
   [1]⟩

/-- The ordered `ELECTRICITY` pattern list. -/
def ELECTRICITY : List Pattern := [patElec1, patElec2, patElec3, patElec4]

/-- `ExtractorAgent._apply_pattern`: all matches of all patterns, in
pattern order. -/
def apply_pattern (text : List Char) (patterns : List Pattern) : List MatchRes :=
  patterns.flatMap (fun p => findAll p text)

/-- Digits to a natural number. -/
def digitsToNat (l : List Char) : Nat :=
  l.foldl (fun a c => a * 10 + (c.toNat - '0'.toNat)) 0

/-- `ExtractorAgent._parse_number`: strip commas and spaces, then parse as
a float (modelled for the shapes produced by the numeric patterns:
digits with at most one decimal point). -/
def parse_number (t : List Char) : Option ℚ :=
  let cleaned := t.filter (fun c => !(c == ',' || c == ' '))
  if cleaned.isEmpty then none
  else if cleaned.all (fun c => c.isDigit || c == '.')
      && (cleaned.filter (fun c => c == '.')).length ≤ 1
      && cleaned.any (fun c => c.isDigit) then
    let intPart := cleaned.takeWhile (fun c => !(c == '.'))
    let fracPart := (cleaned.dropWhile (fun c => !(c == '.'))).drop 1
    some ((digitsToNat intPart : ℚ) + (digitsToNat fracPart : ℚ) / (10 : ℚ) ^ fracPart.length)
  else none

/-- The electricity loop of `ExtractorAgent._extract_with_regex`: the
first match that is a tuple of length ≥ 2 whose first group parses to a
truthy number yields `(value, unit)`; plain-string matches (patterns with
a single group) are skipped by the `isinstance(match, tuple)` guard. -/
def first_elec_value (ms : List MatchRes) : Option (ℚ × List Char) :=
  ms.findSome? (fun m =>
    match m with
    | .str _ => none
    | .tup gs =>
      match gs with
      | g0 :: g1 :: _ =>
        match parse_number g0 with
        | some v => if v ≠ 0 then some (v, g1) else none
        | none => none
      | _ => none)

/-- The fields of `ExtractedActivityData` involved in the electricity
extraction (the other field families of `_extract_with_regex` are computed
independently of these). -/
structure ExtractedElec where
  document_type : Option String
  electricity_consumption_kwh : Option ℚ
  electricity_consumption_mwh : Option ℚ
  extraction_warnings : List String
deriving DecidableEq

/-- The electricity slice of `ExtractorAgent._extract_with_regex`
(document-type heuristic, electricity matching/conversion, and the
missing-consumption warning), for the regex backend. -/
def extract_with_regex_elec (text : List Char) (filename : List Char) : ExtractedElec :=
  let filename_lower := filename.map Char.toLower
  let document_type :=
    if isSubList "electricity".data filename_lower
        || isSubList "bill".data filename_lower
        || isSubList "power".data filename_lower then
      some "electricity_bill"
    else if isSubList "mill".data filename_lower
        || isSubList "certificate".data filename_lower
        || isSubList "test".data filename_lower then
      some "mill_test_certificate"
    else if isSubList "invoice".data filename_lower then
      some "commercial_invoice"
    else none
  let elec_matches := apply_pattern (text.map Char.toLower) ELECTRICITY
  let kwh := (first_elec_value elec_matches).map (fun vu => to_kwh vu.1 vu.2)
  let mwh := kwh.map to_mwh
  let warnings :=
    if document_type == some "electricity_bill" && !(ratTruthy kwh) then
      ["Could not extract electricity consumption from bill"]
    else []
  ⟨document_type, kwh, mwh, warnings⟩

/-- The Scenario C document text. -/
def scenarioCText : List Char := "Total units consumed: 125,000 kWh".data

/-- The Scenario C filename. -/
def scenarioCFile : List Char := "electricity_bill_oct.pdf".data

/-! ## Classifier data model (`classifier_agent.py`) -/

/-- `ReviewStatus` enumeration. -/
inductive ReviewStatus where
  | approved | needs_review | rejected
deriving DecidableEq

/-- `EmissionFactor` dataclass. -/
structure EmissionFactor where
  category : CBAMCategory
  direct_tco2_per_tonne : ℚ
  indirect_tco2_per_tonne : ℚ
  electricity_mwh_per_tonne : ℚ
deriving DecidableEq

/-- `DEFAULT_EMISSION_FACTORS` (dict as ordered association list). -/
def DEFAULT_EMISSION_FACTORS : List (CBAMCategory × EmissionFactor) :=
  [ (.iron_steel, ⟨.iron_steel, 19/10, 3/10, 1/2⟩),
    (.aluminium, ⟨.aluminium, 8, 13/2, 14⟩),
    (.cement, ⟨.cement, 13/20, 2/25, 1/10⟩),
    (.fertilizers, ⟨.fertilizers, 5/2, 1/5, 3/10⟩),
    (.hydrogen, ⟨.hydrogen, 9, 3, 50⟩),
    (.electricity, ⟨.electricity, 0, 1/2, 1⟩) ]

/-- `ClassificationResult` dataclass. -/
structure ClassificationResult where
  cn_code : String
  cn_code_formatted : String
  cn_description : String
  confidence : ℚ
  review_status : ReviewStatus
  chapter : String
  chapter_description : String
  heading : String
  subheading : String
  is_cbam_relevant : Bool
  cbam_category : Option CBAMCategory := none
  emission_factor : Option EmissionFactor := none
  alternative_codes : List (String × String × ℚ) := []
  matched_keywords : List String := []
  classification_notes : List String := []
deriving DecidableEq

/-- `CBAM_CHAPTERS` (chapter prefix to CBAM category). -/
def CBAM_CHAPTERS : List (String × CBAMCategory) :=
  [ ("25", .cement),
    ("26", .iron_steel),
    ("27", .electricity),
    ("28", .hydrogen),
    ("31", .fertilizers),
    ("72", .iron_steel),
    ("73", .iron_steel),
    ("76", .aluminium) ]

/-- `CHAPTER_DESCRIPTIONS`. -/
def CHAPTER_DESCRIPTIONS : List (String × String) :=
  [ ("25", "Salt; sulphur; earths and stone; plastering materials, lime and cement"),
    ("26", "Ores, slag and ash"),
    ("27", "Mineral fuels, mineral oils and products of their distillation"),
    ("28", "Inorganic chemicals; organic or inorganic compounds of precious metals"),
    ("31", "Fertilizers"),
    ("72", "Iron and steel"),
    ("73", "Articles of iron or steel"),
    ("76", "Aluminium and articles thereof"),
    ("84", "Nuclear reactors, boilers, machinery and mechanical appliances"),
    ("85", "Electrical machinery and equipment and parts thereof") ]

/-- An entry of `CN_CODE_DATABASE`. -/
structure CNInfo where
  desc : String
  chapter : String
  heading : String
deriving DecidableEq

/-- Entry constructor for `CN_CODE_DATABASE`. -/
def cnEntry (code desc chapter heading : String) : String × CNInfo :=
  (code, ⟨desc, chapter, heading⟩)

/-- `CN_CODE_DATABASE` (dict as ordered association list; insertion order
is the tie-break order of the classifier). -/
def CN_CODE_DATABASE : List (String × CNInfo) :=
  [ cnEntry "72061000" "Iron; ingots and other primary forms" "72" "7206",
    cnEntry "72071100" "Semi-finished products of iron; containing by weight less than 0.25% carbon" "72" "7207",
    cnEntry "72071200" "Semi-finished products of iron; containing by weight 0.25% or more of carbon" "72" "7207",
    cnEntry "72081000" "Flat-rolled products of iron, in coils, hot-rolled, width >= 600mm" "72" "7208",
    cnEntry "72082500" "Flat-rolled products, hot-rolled, width >= 600mm, thickness >= 4.75mm" "72" "7208",
    cnEntry "72083600" "Flat-rolled products, hot-rolled, width >= 600mm, thickness > 1mm but < 3mm" "72" "7208",
    cnEntry "72085191" "Flat-rolled products, hot-rolled, not in coils, width >= 600mm, thickness > 10mm" "72" "7208",
    cnEntry "72091500" "Flat-rolled products, cold-rolled, width >= 600mm, thickness >= 3mm" "72" "7209",
    cnEntry "72091690" "Flat-rolled products, cold-rolled, width >= 600mm, thickness > 1mm but < 3mm" "72" "7209",
    cnEntry "72101100" "Flat-rolled products, plated or coated with tin, width >= 600mm" "72" "7210",
    cnEntry "72103000" "Flat-rolled products, electrolytically plated with zinc" "72" "7210",
    cnEntry "72104100" "Flat-rolled products, zinc coated, corrugated" "72" "7210",
    cnEntry "72104900" "Flat-rolled products, zinc coated, other" "72" "7210",
    cnEntry "72106100" "Flat-rolled products, plated with aluminium-zinc alloys" "72" "7210",
    cnEntry "72139100" "Wire rod, of iron or non-alloy steel, circular cross-section, diameter < 14mm" "72" "7213",
    cnEntry "72142000" "Bars and rods, of iron or non-alloy steel, not further worked than hot-rolled" "72" "7214",
    cnEntry "72163100" "U, I or H sections of iron or steel, not further worked, height < 80mm" "72" "7216",
    cnEntry "72163300" "H sections of iron or steel, height >= 80mm" "72" "7216",
    cnEntry "73041100" "Line pipe, seamless, of stainless steel" "73" "7304",
    cnEntry "73041900" "Line pipe, seamless, of iron or steel (excluding stainless)" "73" "7304",
    cnEntry "73042300" "Drill pipe, seamless, of stainless steel" "73" "7304",
    cnEntry "73042900" "Casing and tubing, seamless, of iron or steel" "73" "7304",
    cnEntry "73051100" "Line pipe, welded, longitudinally submerged arc welded" "73" "7305",
    cnEntry "73063000" "Tubes, welded, of iron or non-alloy steel, circular cross-section" "73" "7306",
    cnEntry "73066100" "Tubes and hollow profiles, welded, of iron or steel, square or rectangular" "73" "7306",
    cnEntry "73071100" "Cast fittings of non-malleable cast iron" "73" "7307",
    cnEntry "73089000" "Structures and parts of structures, of iron or steel, n.e.s." "73" "7308",
    cnEntry "73101000" "Tanks, casks, drums, of iron or steel, capacity 50-300 litres" "73" "7310",
    cnEntry "73110000" "Containers for compressed or liquefied gas, of iron or steel" "73" "7311",
    cnEntry "73170000" "Nails, tacks, drawing pins, corrugated nails, staples" "73" "7317",
    cnEntry "73181100" "Coach screws of iron or steel" "73" "7318",
    cnEntry "73181200" "Wood screws (other than coach screws) of iron or steel" "73" "7318",
    cnEntry "73181300" "Screw hooks and screw rings of iron or steel" "73" "7318",
    cnEntry "73181400" "Self-tapping screws of iron or steel" "73" "7318",
    cnEntry "73181500" "Threaded screws of iron or steel, n.e.s." "73" "7318",
    cnEntry "73181590" "Other screws, fully threaded, of iron or steel" "73" "7318",
    cnEntry "73181600" "Nuts of iron or steel" "73" "7318",
    cnEntry "73181691" "Nuts, internally threaded, of iron or steel" "73" "7318",
    cnEntry "73181900" "Threaded articles of iron or steel, n.e.s." "73" "7318",
    cnEntry "73182100" "Spring washers and other lock washers of iron or steel" "73" "7318",
    cnEntry "73182200" "Washers (other than spring washers) of iron or steel" "73" "7318",
    cnEntry "73182400" "Cotters and cotter pins of iron or steel" "73" "7318",
    cnEntry "73194000" "Safety pins and other pins of iron or steel, n.e.s." "73" "7319",
    cnEntry "73202000" "Helical springs of iron or steel" "73" "7320",
    cnEntry "76011000" "Aluminium, not alloyed, unwrought" "76" "7601",
    cnEntry "76012000" "Aluminium alloys, unwrought" "76" "7601",
    cnEntry "76020000" "Aluminium waste and scrap" "76" "7602",
    cnEntry "76031000" "Aluminium powders, non-lamellar structure" "76" "7603",
    cnEntry "76041010" "Aluminium bars and rods, not alloyed" "76" "7604",
    cnEntry "76042100" "Aluminium alloy hollow profiles" "76" "7604",
    cnEntry "76042900" "Aluminium alloy bars, rods and profiles, n.e.s." "76" "7604",
    cnEntry "76051100" "Aluminium wire, not alloyed, max cross-sectional dimension > 7mm" "76" "7605",
    cnEntry "76052100" "Aluminium alloy wire, max cross-sectional dimension > 7mm" "76" "7605",
    cnEntry "76061100" "Aluminium plates and sheets, not alloyed, thickness > 0.2mm, rectangular" "76" "7606",
    cnEntry "76061191" "Aluminium plates, not alloyed, thickness > 0.2mm, width > 1000mm" "76" "7606",
    cnEntry "76061200" "Aluminium alloy plates and sheets, rectangular, thickness > 0.2mm" "76" "7606",
    cnEntry "76061291" "Aluminium alloy plates, thickness > 0.2mm, width > 1000mm" "76" "7606",
    cnEntry "76061299" "Other aluminium alloy plates and sheets, thickness > 0.2mm" "76" "7606",
    cnEntry "76071100" "Aluminium foil, not backed, rolled, thickness <= 0.2mm" "76" "7607",
    cnEntry "76071900" "Aluminium foil, backed, thickness <= 0.2mm" "76" "7607",
    cnEntry "76081000" "Aluminium tubes and pipes, not alloyed" "76" "7608",
    cnEntry "76082000" "Aluminium alloy tubes and pipes" "76" "7608",
    cnEntry "76090000" "Aluminium tube or pipe fittings" "76" "7609",
    cnEntry "76101000" "Aluminium doors, windows and their frames" "76" "7610",
    cnEntry "76109000" "Aluminium structures and parts of structures, n.e.s." "76" "7610",
    cnEntry "25231000" "Cement clinkers" "25" "2523",
    cnEntry "25232100" "White Portland cement, whether or not artificially coloured" "25" "2523",
    cnEntry "25232900" "Other Portland cement" "25" "2523",
    cnEntry "25233000" "Aluminous cement" "25" "2523",
    cnEntry "25239000" "Other hydraulic cements" "25" "2523",
    cnEntry "31021000" "Urea, whether or not in aqueous solution" "31" "3102",
    cnEntry "31022100" "Ammonium sulphate" "31" "3102",
    cnEntry "31023000" "Ammonium nitrate, whether or not in aqueous solution" "31" "3102",
    cnEntry "31024000" "Mixtures of ammonium nitrate with calcium carbonate or other substances" "31" "3102",
    cnEntry "31025000" "Sodium nitrate" "31" "3102",
    cnEntry "31028000" "Mixtures of urea and ammonium nitrate in aqueous or ammoniacal solution" "31" "3102",
    cnEntry "31031100" "Superphosphates, containing by weight 35% or more of diphosphorus pentaoxide" "31" "3103",
    cnEntry "31039000" "Other mineral or chemical fertilizers, phosphatic" "31" "3103",
    cnEntry "31052000" "Mineral or chemical fertilizers containing NPK" "31" "3105",
    cnEntry "28041000" "Hydrogen" "28" "2804" ]

/-- `SEMANTIC_KEYWORDS` (dict as ordered association list). -/
def SEMANTIC_KEYWORDS : List (String × List String) :=
  [ ("screw", ["73181500", "73181590", "73181400", "73181300", "73181200", "73181100"]),
    ("screws", ["73181500", "73181590", "73181400"]),
    ("bolt", ["73181500", "73181590", "73181900"]),
    ("bolts", ["73181500", "73181590"]),
    ("nut", ["73181600", "73181691"]),
    ("nuts", ["73181600", "73181691"]),
    ("fastener", ["73181500", "73181600", "73181900"]),
    ("fasteners", ["73181500", "73181600"]),
    ("washer", ["73182100", "73182200"]),
    ("washers", ["73182100", "73182200"]),
    ("nail", ["73170000"]),
    ("nails", ["73170000"]),
    ("spring", ["73202000", "73182100"]),
    ("pipe", ["73041900", "73051100", "73063000"]),
    ("pipes", ["73041900", "73063000"]),
    ("tube", ["73041900", "73063000", "73066100"]),
    ("tubes", ["73063000", "73066100"]),
    ("tank", ["73101000", "73110000"]),
    ("container", ["73110000", "73101000"]),
    ("structure", ["73089000"]),
    ("beam", ["72163100", "72163300"]),
    ("section", ["72163100", "72163300"]),
    ("coil", ["72081000", "72082500", "72083600"]),
    ("coils", ["72081000", "72082500"]),
    ("sheet", ["72085191", "72091500", "72091690", "76061191", "76061291"]),
    ("sheets", ["72085191", "72091500", "76061291"]),
    ("plate", ["72085191", "76061191", "76061291"]),
    ("plates", ["72085191", "76061191"]),
    ("flat-rolled", ["72081000", "72085191", "72091500", "72104100"]),
    ("hot-rolled", ["72081000", "72082500", "72083600", "72085191"]),
    ("cold-rolled", ["72091500", "72091690"]),
    ("galvanized", ["72104100", "72104900", "72103000"]),
    ("zinc", ["72103000", "72104100", "72104900"]),
    ("tin", ["72101100"]),
    ("wire", ["72139100", "76051100", "76052100"]),
    ("rod", ["72139100", "72142000"]),
    ("bar", ["72142000", "76041010", "76042900"]),
    ("ingot", ["72061000", "76011000"]),
    ("aluminum", ["76061191", "76061291", "76011000", "76012000", "76071100"]),
    ("aluminium", ["76061191", "76061291", "76011000", "76012000", "76071100"]),
    ("foil", ["76071100", "76071900"]),
    ("profile", ["76042100", "76042900"]),
    ("profiles", ["76042100", "76042900"]),
    ("extrusion", ["76042100", "76042900"]),
    ("window", ["76101000"]),
    ("door", ["76101000"]),
    ("cement", ["25232900", "25232100", "25231000", "25233000"]),
    ("portland", ["25232900", "25232100"]),
    ("clinker", ["25231000"]),
    ("hydraulic", ["25239000"]),
    ("fertilizer", ["31052000", "31021000", "31023000"]),
    ("fertiliser", ["31052000", "31021000"]),
    ("urea", ["31021000", "31028000"]),
    ("ammonium", ["31022100", "31023000", "31024000", "31028000"]),
    ("nitrate", ["31023000", "31024000", "31025000"]),
    ("phosphate", ["31031100", "31039000"]),
    ("npk", ["31052000"]),
    ("hydrogen", ["28041000"]),
    ("steel", ["72", "73"]),
    ("iron", ["72", "73"]),
    ("stainless", ["73041100", "73042300"]),
    ("alloy", ["76012000", "76042100", "76061291"]) ]

/-! ## Classifier (`ClassifierAgent`) -/

/-- Word characters of the Python `\b` boundary (ASCII model of `\w`). -/
def isWordC (c : Char) : Bool := c.isAlpha || c.isDigit || c == '_'

/-- Lowercase ASCII letter (`[a-z]`). -/
def isLowerAZ (c : Char) : Bool := 'a' ≤ c && c ≤ 'z'

/-- Maximal runs of word characters of a text, in order.  A match of
`\b[a-z]+\b` is exactly a maximal word-character run consisting only of
`[a-z]` (a run containing a digit or underscore has no interior word
boundary, so no sub-run of it can match). -/
def word_runs (l : List Char) : List (List Char) :=
  let step : Char → List Char × List (List Char) → List Char × List (List Char) :=
    fun c acc =>
      if isWordC c then (c :: acc.1, acc.2)
      else ([], if acc.1.isEmpty then acc.2 else acc.1 :: acc.2)
  let r := l.foldr step ([], [])
  if r.1.isEmpty then r.2 else r.1 :: r.2

/-- The classifier's stop-word set. -/
def stop_words : List String :=
  ["of", "the", "and", "or", "for", "with", "in", "on", "at", "to", "a", "an"]

/-- `ClassifierAgent._extract_keywords`: `re.findall(r'\b[a-z]+\b',
text.lower())`, then drop stop words and words of length ≤ 2, as a set
(modelled as a duplicate-free list; the scoring below only depends on the
set). -/
def extract_keywords (text : String) : List String :=
  let words := (word_runs (text.data.map Char.toLower)).filter
    (fun r => r.all isLowerAZ && !r.isEmpty)
  ((words.map (fun r => (⟨r⟩ : String))).filter
    (fun w => !(stop_words.contains w) && 2 < w.data.length)).dedup

/-- Lookup in `SEMANTIC_KEYWORDS` (`keyword in SEMANTIC_KEYWORDS` /
`SEMANTIC_KEYWORDS[keyword]`). -/
def lookupKeyword (kw : String) : Option (List String) :=
  (SEMANTIC_KEYWORDS.find? (fun p => p.1 == kw)).map (·.2)

/-- One step of the keyword loop of
`ClassifierAgent._calculate_match_score`: accumulate `(base_score,
matched)` over one keyword. -/
def kw_step (code : String) (acc : ℚ × List String) (keyword : String) : ℚ × List String :=
  match lookupKeyword keyword with
  | none => acc
  | some codes =>
    if code ∈ codes then (acc.1 + 1/4, acc.2 ++ [keyword])
    else if codes.any (fun c => c.data.length == 2 && c.data.isPrefixOf code.data) then
      (acc.1 + 1/10, acc.2 ++ [keyword ++ "(chapter)"])
    else acc

/-- `ClassifierAgent._calculate_match_score`: raw score and matched list,
normalization by `min(raw / (|keywords| * 0.15), 1.0)` (or `0.5` for an
empty keyword set), then the match-count confidence boost. -/
def calculate_match_score (keywords : List String) (code : String) : ℚ × List String :=
  let bm := keywords.foldl (kw_step code) (0, [])
  let normalized_score :=
    if 0 < keywords.length then min (bm.1 / ((keywords.length : ℚ) * (3/20))) 1
    else 1/2
  let final :=
    if 3 ≤ bm.2.length then min (normalized_score + 3/20) (49/50)
    else if 2 ≤ bm.2.length then min (normalized_score + 2/25) (19/20)
    else normalized_score
  (final, bm.2)

/-- A scored candidate `(code, score, matched_keywords)` of the
classifier. -/
structure Scored where
  code : String
  score : ℚ
  matched : List String
deriving DecidableEq

/-- Candidate filter of `ClassifierAgent.classify`: keep a scored code
only above the consideration threshold `0.3`. -/
def scored_keep (keywords : List String) (ci : String × CNInfo) : Option Scored :=
  let sm := calculate_match_score keywords ci.1
  if 3/10 < sm.1 then some ⟨ci.1, sm.1, sm.2⟩ else none

/-- The unsorted scored-candidate list of `ClassifierAgent.classify`
(taxonomy insertion order). -/
def scored_codes (keywords : List String) : List Scored :=
  CN_CODE_DATABASE.filterMap (scored_keep keywords)

/-- Stable insertion into a list sorted by descending score: an element
goes before the first strictly smaller score, after earlier equal
scores. -/
def insertByScore (x : Scored) : List Scored → List Scored
  | [] => [x]
  | y :: ys => if y.score ≤ x.score then x :: y :: ys else y :: insertByScore x ys

/-- Stable sort by descending score (model of Python's stable
`list.sort(key=..., reverse=True)`). -/
def sortByScore : List Scored → List Scored
  | [] => []
  | x :: xs => insertByScore x (sortByScore xs)

/-- Python `round(q, 3)` (ties to even). -/
def pyRound3 (q : ℚ) : ℚ := (roundHalfEven (q * 1000) : ℚ) / 1000

/-- Python `f"{q:.0%}"`. -/
def pyPercent0 (q : ℚ) : String := toString (roundHalfEven (q * 100)) ++ "%"

/-- `f"{code[:4]} {code[4:6]} {code[6:]}"`. -/
def fmtCnSpaced (code : String) : String :=
  pySlice code 0 4 ++ " " ++ pySlice code 4 6 ++ " " ++ pySliceFrom code 6

/-- `ClassifierAgent.classify`.  The cache is transparent (the cached
value is the pure function of the normalized text), and model loading has
no effect on the computation, so both are omitted from the model. -/
def classify (product_description : String) : ClassificationResult :=
  let keywords := extract_keywords product_description
  let sorted := sortByScore (scored_codes keywords)
  let best : String × ℚ × List String := match sorted with
    | b :: _ => (b.code, b.score, b.matched)
    | [] => ("73181500", (2/5 : ℚ), ([] : List String))
  let best_code := best.1
  let confidence := best.2.1
  let matched_keywords := best.2.2
  let code_info :=
    ((CN_CODE_DATABASE.find? (fun p => p.1 == best_code)).map (·.2)).getD
      ⟨"Unknown", "73", "7318"⟩
  let chapter := code_info.chapter
  let heading := code_info.heading
  let formatted_code := fmtCnSpaced best_code
  let cbam_category := (CBAM_CHAPTERS.find? (fun p => p.1 == chapter)).map (·.2)
  let is_cbam := cbam_category.isSome
  let emission_factor := cbam_category.bind
    (fun cat => (DEFAULT_EMISSION_FACTORS.find? (fun p => decide (p.1 = cat))).map (·.2))
  let review_status :=
    if 23/25 ≤ confidence then ReviewStatus.approved
    else if 17/20 ≤ confidence then ReviewStatus.approved
    else ReviewStatus.needs_review
  let alternatives :=
    ((match sorted with | _ :: rest => rest.take 3 | [] => []) : List Scored).map
      (fun (c : Scored) => (fmtCnSpaced c.code,
        (((CN_CODE_DATABASE.find? (fun p => p.1 == c.code)).map (fun p => p.2.desc)).getD ""),
        c.score))
  let notes :=
    (if is_cbam then [] else ["This code is not subject to CBAM reporting requirements"])
    ++ (if confidence < 17/20 then
          ["Confidence " ++ pyPercent0 confidence ++ " below threshold - recommend human verification"]
        else [])
  { cn_code := best_code
    cn_code_formatted := formatted_code
    cn_description := code_info.desc
    confidence := pyRound3 confidence
    review_status := review_status
    chapter := chapter
    chapter_description := ((CHAPTER_DESCRIPTIONS.find? (fun p => p.1 == chapter)).map (·.2)).getD ""
    heading := heading
    subheading := best_code
    is_cbam_relevant := is_cbam
    cbam_category := cbam_category
    emission_factor := emission_factor
    alternative_codes := alternatives
    matched_keywords := matched_keywords
    classification_notes := notes }

/-! ## Serializer: XML validation (`SerializerAgent.validate_xml`)

The XSD collaborator (lxml) is abstracted: a loaded schema provides a
boolean verdict and an error log over parsed documents (type `δ`), and
parsing `xml_bytes` yields a document, a syntax error (malformed XML) or
another exception.  `validate_xml` is a total function of these
outcomes: the `try/except` of the source corresponds to the match on the
parse outcome, so no case raises. -/

/-- An entry of the lxml schema error log. -/
structure XmlSchemaError where
  line : ℤ
  message : String

/-- A loaded XSD schema over documents of type `δ`. -/
structure SchemaModel (δ : Type) where
  validates : δ → Bool
  error_log : δ → List XmlSchemaError

/-- Outcome of `etree.fromstring(xml_bytes)`. -/
inductive XmlParseOutcome (δ : Type) where
  | ok (doc : δ)
  | syntaxError (msg : String)
  | otherError (msg : String)

/-- `ValidationResult` dataclass. -/
structure ValidationResult where
  is_valid : Bool
  errors : List String := []
  warnings : List String := []
  schema_version : String := "23.00"
deriving DecidableEq

/-- `SerializerAgent.validate_xml` after `load_schema` has settled:
`schema = none` models the loaded-without-schema state. -/
def validate_xml {δ : Type} (schema : Option (SchemaModel δ))
    (parsed : XmlParseOutcome δ) : ValidationResult :=
  match schema with
  | none =>
    { is_valid := true, errors := [],
      warnings := ["Schema validation skipped - no schema loaded"] }
  | some s =>
    match parsed with
    | .ok doc =>
      if s.validates doc then { is_valid := true }
      else
        { is_valid := false
          errors := (s.error_log doc).map
            (fun e => "Line " ++ toString e.line ++ ": " ++ e.message) }
    | .syntaxError msg => { is_valid := false, errors := ["XML Syntax Error: " ++ msg] }
    | .otherError msg => { is_valid := false, errors := ["Validation Error: " ++ msg] }

/-! ## Specification-side definitions for the scoring claim (C6)

These definitions follow the wording of the specification, to be compared
with the source-derived `calculate_match_score` / `scored_codes` /
`sortByScore` pipeline. -/

/-- Per-token contribution, as the specification words it: `+0.25` when
the code appears directly in the keyword's code list, else `+0.10` when a
2-character entry of that list is the code's chapter prefix, for tokens
present in the lookup table. -/
def spec_token_score (code : String) (t : String) : ℚ :=
  match lookupKeyword t with
  | none => 0
  | some codes =>
    if code ∈ codes then 1/4
    else if ∃ c ∈ codes, c.data.length = 2 ∧ c.data.isPrefixOf code.data = true then 1/10
    else 0

/-- Raw score: the sum of the per-token contributions over the tokens. -/
def spec_raw_score (keywords : List String) (code : String) : ℚ :=
  (keywords.map (spec_token_score code)).sum

/-- Number of tokens that matched (contributed to the raw score). -/
def spec_match_count (keywords : List String) (code : String) : ℕ :=
  (keywords.filter (fun t => spec_token_score code t ≠ 0)).length

/-- The specification's score formula for a non-empty token set:
normalize the raw score by `min(raw / (|tokens| × 0.15), 1.0)`, then
boost by `+0.15` capped at `0.98` when at least 3 keywords matched, else
by `+0.08` capped at `0.95` when at least 2 matched. -/
def spec_score (keywords : List String) (code : String) : ℚ :=
  let normalized := min (spec_raw_score keywords code / ((keywords.length : ℚ) * (3/20))) 1
  if 3 ≤ spec_match_count keywords code then min (normalized + 3/20) (49/50)
  else if 2 ≤ spec_match_count keywords code then min (normalized + 2/25) (19/20)
  else normalized

/-- A scored candidate annotated with its insertion index in the
taxonomy. -/
structure ScoredIdx where
  idx : ℕ
  code : String
  score : ℚ
  matched : List String
deriving DecidableEq

/-- Forget the taxonomy index. -/
def dropIdx (x : ScoredIdx) : Scored := ⟨x.code, x.score, x.matched⟩

/-- Index-annotated candidate filter (same keep condition as
`scored_keep`: scores ≤ 0.30 are discarded). -/
def surv_keep (keywords : List String) (p : ℕ × (String × CNInfo)) : Option ScoredIdx :=
  let sm := calculate_match_score keywords p.2.1
  if 3/10 < sm.1 then some ⟨p.1, p.2.1, sm.1, sm.2⟩ else none

/-- The surviving candidates with their taxonomy insertion indices. -/
def spec_survivors (keywords : List String) : List ScoredIdx :=
  (List.enumFrom 0 CN_CODE_DATABASE).filterMap (surv_keep keywords)

/-- The specification's order: strictly before means a strictly higher
score, or an equal score and an earlier taxonomy position (first-listed
code wins ties). -/
def specBefore (x y : ScoredIdx) : Prop :=
  y.score < x.score ∨ (x.score = y.score ∧ x.idx < y.idx)

instance (x y : ScoredIdx) : Decidable (specBefore x y) := by
  unfold specBefore; infer_instance

/-- Insertion into a list sorted by `specBefore`. -/
def insertLex (x : ScoredIdx) : List ScoredIdx → List ScoredIdx
  | [] => [x]
  | y :: ys => if specBefore x y then x :: y :: ys else y :: insertLex x ys

/-- Sorting by `specBefore` (descending score, ties by taxonomy
insertion order). -/
def sortLex : List ScoredIdx → List ScoredIdx
  | [] => []
  | x :: xs => insertLex x (sortLex xs)

/-- Stable insertion by descending score on index-annotated candidates
(mirror of `insertByScore`). -/
def insertByScoreI (x : ScoredIdx) : List ScoredIdx → List ScoredIdx
  | [] => [x]
  | y :: ys => if y.score ≤ x.score then x :: y :: ys else y :: insertByScoreI x ys

/-- Stable sort by descending score on index-annotated candidates
(mirror of `sortByScore`). -/
def sortByScoreI : List ScoredIdx → List ScoredIdx
  | [] => []
  | x :: xs => insertByScoreI x (sortByScoreI xs)

/-! ## Helper lemmas -/

/-- Replacing the precursor list leaves the emissions unchanged. -/
theorem emissions_withPrecursors (g : GoodsItem) (l : List GoodsItem) :
    (g.withPrecursors l).emissions = g.emissions := by
  cases g; rfl

/-- Every ISO code of the country table has exactly two characters. -/
theorem country_codes_len2 : ∀ p ∈ COUNTRY_TO_ISO, p.2.data.length = 2 := by
  decide

/-! ## Claim theorems -/

/-- C1: `generate_xml` recomputes the aggregate totals from the goods
list at generation time; the `Summary` element it generates carries item
count and the 6-digit renderings of exactly `Σ direct`, `Σ indirect` and
their sum over the report's goods, regardless of any caller-supplied
values in the report's three total fields. -/
theorem c1_summary_totals_recomputed (today : String) (r : CBAMReport) :
    ((generate_xml today r).1.children.getLast? = some (el "Summary"
      [ el "TotalGoodsItems" [tx (toString r.goods.length)],
        el "TotalDirectEmissions"
          [ el "Value" [tx (format_decimal (sum_direct r.goods) 6)],
            el "Unit" [tx "tCO2"] ],
        el "TotalIndirectEmissions"
          [ el "Value" [tx (format_decimal (sum_indirect r.goods) 6)],
            el "Unit" [tx "tCO2"] ],
        el "TotalEmissions"
          [ el "Value" [tx (format_decimal (sum_direct r.goods + sum_indirect r.goods) 6)],
            el "Unit" [tx "tCO2"] ] ]))
    ∧ ∀ td ti tt : ℚ,
        generate_xml today
            { r with total_direct_emissions := td,
                     total_indirect_emissions := ti,
                     total_emissions := tt }
          = generate_xml today r := by
  exact ⟨rfl, fun td ti tt => rfl⟩

/-- C2: the serializer's commodity-code formatting (strip spaces and
periods, truncate to 8, right-pad with '0') never rejects an input and
always returns exactly 8 characters. -/
theorem c2_cn_code_always_8_chars (code : String) :
    (format_cn_code code).length = 8 := by
  simp only [format_cn_code, String.length, List.length_append,
    List.length_replicate, List.length_take]
  omega

/-- C10: `generate_xml` mutates only the three total fields of its input
report: afterwards they hold the recomputed sums, and every other field —
including the declarant and the entire goods list with its nested
emissions and precursor entries — is unchanged. -/
theorem c10_generate_xml_frame (today : String) (r : CBAMReport) :
    (generate_xml today r).2.total_direct_emissions = sum_direct r.goods
    ∧ (generate_xml today r).2.total_indirect_emissions = sum_indirect r.goods
    ∧ (generate_xml today r).2.total_emissions = sum_direct r.goods + sum_indirect r.goods
    ∧ (generate_xml today r).2.report_id = r.report_id
    ∧ (generate_xml today r).2.reporting_period_year = r.reporting_period_year
    ∧ (generate_xml today r).2.reporting_period_quarter = r.reporting_period_quarter
    ∧ (generate_xml today r).2.declarant = r.declarant
    ∧ (generate_xml today r).2.goods = r.goods
    ∧ (generate_xml today r).2.report_type = r.report_type
    ∧ (generate_xml today r).2.submission_date = r.submission_date
    ∧ (generate_xml today r).2.is_amendment = r.is_amendment
    ∧ (generate_xml today r).2.original_report_id = r.original_report_id
    ∧ (generate_xml today r).2.amendment_reason = r.amendment_reason := by
  exact ⟨rfl, rfl, rfl, rfl, rfl, rfl, rfl, rfl, rfl, rfl, rfl, rfl, rfl⟩

/-- C9: the aggregate totals sum over the top-level goods list only —
replacing any precursor lists never changes them — while a non-empty
precursor list of an item does appear as a nested `PrecursorGoods`
element (one `Goods` child per precursor) in that item's element. -/
theorem c9_precursors_excluded_from_totals
    (r : CBAMReport) (g p : GoodsItem) (ps0 : List GoodsItem) :
    (calculate_totals r).total_direct_emissions = sum_direct r.goods
    ∧ (calculate_totals r).total_indirect_emissions = sum_indirect r.goods
    ∧ (calculate_totals r).total_emissions = sum_direct r.goods + sum_indirect r.goods
    ∧ (calculate_totals { r with goods := r.goods.map (fun g2 => g2.withPrecursors (p :: ps0)) }).total_direct_emissions = (calculate_totals r).total_direct_emissions
    ∧ (calculate_totals { r with goods := r.goods.map (fun g2 => g2.withPrecursors (p :: ps0)) }).total_indirect_emissions = (calculate_totals r).total_indirect_emissions
    ∧ (calculate_totals { r with goods := r.goods.map (fun g2 => g2.withPrecursors (p :: ps0)) }).total_emissions = (calculate_totals r).total_emissions
    ∧ Xml.elem "PrecursorGoods" [] (build_goods_items (p :: ps0))
        ∈ (build_goods_item (g.withPrecursors (p :: ps0))).children := by
  have hd : sum_direct (r.goods.map (fun g2 => g2.withPrecursors (p :: ps0)))
      = sum_direct r.goods := by
    simp [sum_direct, List.map_map, Function.comp_def, emissions_withPrecursors]
  have hi : sum_indirect (r.goods.map (fun g2 => g2.withPrecursors (p :: ps0)))
      = sum_indirect r.goods := by
    simp [sum_indirect, List.map_map, Function.comp_def, emissions_withPrecursors]
  refine ⟨rfl, rfl, rfl, ?_, ?_, ?_, ?_⟩
  · simpa [calculate_totals] using hd
  · simpa [calculate_totals] using hi
  · simp [calculate_totals, hd, hi]
  · cases g
    simp [GoodsItem.withPrecursors, build_goods_item.eq_def, Xml.children, List.mem_append]

/-- C8: `validate_xml` never raises — it is a total function of the
collaborator outcomes.  With no schema configured it returns
`is_valid = true` with the "schema validation skipped" warning and no
errors; when the loaded schema rejects the document it returns
`is_valid = false` with one `Line {line}: {message}` entry per schema
error; malformed (unparseable) XML yields `is_valid = false` with a
single explicit error entry instead of an exception. -/
theorem c8_validate_xml_total {δ : Type} (s : SchemaModel δ) (doc : δ) (msg : String) :
    validate_xml (none : Option (SchemaModel δ)) (.ok doc)
      = { is_valid := true, errors := [],
          warnings := ["Schema validation skipped - no schema loaded"] }
    ∧ validate_xml (some s) (.ok doc)
      = (if s.validates doc then ({ is_valid := true } : ValidationResult)
         else { is_valid := false
                errors := (s.error_log doc).map
                  (fun e => "Line " ++ toString e.line ++ ": " ++ e.message) })
    ∧ validate_xml (some s) (.syntaxError msg)
      = { is_valid := false, errors := ["XML Syntax Error: " ++ msg] }
    ∧ validate_xml (some s) (.otherError msg)
      = { is_valid := false, errors := ["Validation Error: " ++ msg] } := by
  exact ⟨rfl, rfl, rfl, rfl⟩

set_option maxRecDepth 4000 in
/-- C3 counterexample: `classify("stainless steel cold-rolled coil")`
returns confidence `0.547`, which is below `0.85`, and review status
`needs_review`, contradicting the claimed `≥ 0.85` / `approved`
("cold-rolled" tokenizes into `cold` and `rolled`, neither of which is a
key of the keyword table, so only `stainless`, `steel` and `coil`
contribute). -/
theorem c3_counterexample :
    (classify "stainless steel cold-rolled coil").confidence = 547/1000
    ∧ (classify "stainless steel cold-rolled coil").review_status = ReviewStatus.needs_review
    ∧ ¬((17/20 : ℚ) ≤ (classify "stainless steel cold-rolled coil").confidence
        ∧ (classify "stainless steel cold-rolled coil").review_status = ReviewStatus.approved) := by
  with_unfolding_all decide

set_option maxRecDepth 4000 in
/-- C3 (amended): `classify("stainless steel cold-rolled coil")` returns
cn_code `"72081000"` (chapter `"72"`, category iron_steel), but at
confidence `0.547` (below `0.85`) with review status `needs_review`. -/
theorem c3_amended_scenario_a :
    (classify "stainless steel cold-rolled coil").cn_code = "72081000"
    ∧ (classify "stainless steel cold-rolled coil").chapter = "72"
    ∧ (classify "stainless steel cold-rolled coil").cbam_category = some CBAMCategory.iron_steel
    ∧ (classify "stainless steel cold-rolled coil").is_cbam_relevant = true
    ∧ (classify "stainless steel cold-rolled coil").confidence = 547/1000
    ∧ (classify "stainless steel cold-rolled coil").review_status = ReviewStatus.needs_review := by
  with_unfolding_all decide

set_option maxRecDepth 4000 in
/-- C5 counterexample: for the description `"the"` the extracted keyword
set is empty — so vacuously no extracted keyword matches the lookup
table — yet `classify` does not fall back to `"73181500"` at `0.40`: the
empty-keyword branch scores every taxonomy code `0.5`, and the first
taxonomy code `"72061000"` wins at confidence `0.5`. -/
theorem c5_counterexample :
    extract_keywords "the" = []
    ∧ (classify "the").cn_code = "72061000"
    ∧ (classify "the").cn_code ≠ "73181500"
    ∧ (classify "the").confidence = 1/2
    ∧ (classify "the").review_status = ReviewStatus.needs_review := by
  with_unfolding_all decide

set_option maxRecDepth 4000 in
/-- C4: for the Scenario C document (filename
`"electricity_bill_oct.pdf"`, text `"Total units consumed: 125,000
kWh"`), the regex backend classifies the document as an electricity bill
but extracts NO electricity consumption: the only matching pattern is the
single-group `units?\s*consumed?\s*[:\-]?\s*(\d[\d,\.]*)`, whose
`findall` entries are plain strings, and the extraction loop's
`isinstance(match, tuple)` guard skips them, leaving
`electricity_consumption_kwh = None` and emitting the
missing-consumption warning — contradicting the claimed `125000.0` /
`125.0`. -/
theorem c4_scenario_c_extraction_fails :
    (extract_with_regex_elec scenarioCText scenarioCFile).document_type = some "electricity_bill"
    ∧ apply_pattern (scenarioCText.map Char.toLower) ELECTRICITY = [MatchRes.str "125,000".data]
    ∧ (extract_with_regex_elec scenarioCText scenarioCFile).electricity_consumption_kwh = none
    ∧ (extract_with_regex_elec scenarioCText scenarioCFile).electricity_consumption_mwh = none
    ∧ (extract_with_regex_elec scenarioCText scenarioCFile).extraction_warnings
        = ["Could not extract electricity consumption from bill"]
    ∧ ¬((extract_with_regex_elec scenarioCText scenarioCFile).electricity_consumption_kwh
          = some 125000
        ∧ (extract_with_regex_elec scenarioCText scenarioCFile).electricity_consumption_mwh
          = some 125) := by
  with_unfolding_all decide

/-- If no keyword of the list is in the lookup table, the scoring fold is
the identity. -/
theorem foldl_kw_step_id (code : String) (l : List String)
    (hl : ∀ kw ∈ l, lookupKeyword kw = none) (init : ℚ × List String) :
    l.foldl (kw_step code) init = init := by
  induction l generalizing init with
  | nil => rfl
  | cons t ts ih =>
    have ht : lookupKeyword t = none := hl t (List.mem_cons_self t ts)
    rw [List.foldl_cons]
    have hstep : kw_step code init t = init := by simp [kw_step, ht]
    rw [hstep]
    exact ih (fun kw hkw => hl kw (List.mem_cons_of_mem _ hkw)) init

/-- C5 (amended): for every description whose extracted keyword set is
NON-EMPTY and disjoint from the keyword table, `classify` returns the
fallback code `"73181500"` at confidence `0.40` with review status
`needs_review` and no matched keywords.  (For an empty keyword set the
code behaves differently — see the counterexample.) -/
theorem c5_amended_fallback (desc : String)
    (h1 : extract_keywords desc ≠ [])
    (h2 : ∀ kw ∈ extract_keywords desc, lookupKeyword kw = none) :
    (classify desc).cn_code = "73181500"
    ∧ (classify desc).confidence = 2/5
    ∧ (classify desc).review_status = ReviewStatus.needs_review
    ∧ (classify desc).matched_keywords = [] := by
  have hlen : 0 < (extract_keywords desc).length := by
    cases hK : extract_keywords desc with
    | nil => exact absurd hK h1
    | cons a l => simp
  have hscore : ∀ code : String,
      calculate_match_score (extract_keywords desc) code = (0, []) := by
    intro code
    unfold calculate_match_score
    rw [foldl_kw_step_id code _ h2]
    simp [hlen]
  have hsc : scored_codes (extract_keywords desc) = [] := by
    rw [scored_codes, List.filterMap_eq_nil_iff]
    intro ci _
    simp [scored_keep, hscore ci.1]
    norm_num
  simp only [classify, hsc, sortByScore]
  refine ⟨?_, ?_, ?_, ?_⟩ <;> with_unfolding_all decide

set_option maxRecDepth 4000 in
/-- C5 witness: Scenario B — `classify("xyzzy nonsense product")`
extracts the non-empty keyword set {xyzzy, nonsense, product}, none of
which is in the keyword table, and falls back to `"73181500"` at `0.40`,
`needs_review`. -/
theorem c5_amended_fallback_witness :
    extract_keywords "xyzzy nonsense product" ≠ []
    ∧ (∀ kw ∈ extract_keywords "xyzzy nonsense product", lookupKeyword kw = none)
    ∧ ((classify "xyzzy nonsense product").cn_code = "73181500"
       ∧ (classify "xyzzy nonsense product").confidence = 2/5
       ∧ (classify "xyzzy nonsense product").review_status = ReviewStatus.needs_review
       ∧ (classify "xyzzy nonsense product").matched_keywords = []) :=
  ⟨by with_unfolding_all decide, by with_unfolding_all decide,
   c5_amended_fallback "xyzzy nonsense product"
     (by with_unfolding_all decide) (by with_unfolding_all decide)⟩

/-- C7 counterexample: `normalize_country` does not always return two
uppercase letters, and table names do not always map to their ISO code:
the empty input returns `""`; the input `"12"` returns `"12"` (two
non-letters); the table alias `"uk"` maps to `"UK"` (the 2-letter-input
branch fires before the lookup), not to its table code `"GB"`. -/
theorem c7_counterexample :
    normalize_country [] = []
    ∧ normalize_country ['1', '2'] = ['1', '2']
    ∧ ¬(∀ c ∈ normalize_country ['1', '2'], isAsciiAlphaC c = true)
    ∧ normalize_country "uk".data = "UK".data
    ∧ ("uk", "GB") ∈ COUNTRY_TO_ISO
    ∧ normalize_country "uk".data ≠ "GB".data := by
  decide

/-- C7 (amended): for every NON-EMPTY input, `normalize_country` returns
exactly 2 characters (names/aliases found in the table map to their
2-character ISO code unless the 2-letter branch fires first; unrecognized
2-letter alphabetic input is upper-cased; unrecognized longer input is
truncated to its first two characters upper-cased, which need not be
letters; unrecognized 1-character input yields `"XX"`); the empty input
yields `""`. -/
theorem c7_amended_length (c : Char) (cs : List Char) :
    (normalize_country (c :: cs)).length = 2 ∧ normalize_country [] = [] := by
  refine ⟨?_, rfl⟩
  rw [normalize_country]
  simp only [List.isEmpty_cons, Bool.false_eq_true, if_false]
  split
  · next h =>
    rw [Bool.and_eq_true, decide_eq_true_eq] at h
    rw [List.length_map]
    simpa using h.1
  · split
    · next nc hfind =>
      exact country_codes_len2 nc (List.mem_of_find?_eq_some hfind)
    · split
      · next h =>
        simp only [List.length_map, List.length_take]
        omega
      · rfl

/-- One `kw_step` adds the specification's per-token contribution to the
score, and appends one matched entry exactly when the token
contributes. -/
theorem kw_step_spec (code : String) (acc : ℚ × List String) (t : String) :
    (kw_step code acc t).1 = acc.1 + spec_token_score code t
    ∧ (kw_step code acc t).2.length
      = acc.2.length + (if spec_token_score code t ≠ 0 then 1 else 0) := by
  unfold kw_step spec_token_score
  cases hk : lookupKeyword t with
  | none => simp
  | some codes =>
    by_cases hmem : code ∈ codes
    · constructor
      · simp [hmem]
      · simp [hmem]
    · constructor
      · simp [hmem]
        split <;> simp
      · simp [hmem]
        split <;> simp

/-- The scoring fold computes the specification's raw score and match
count. -/
theorem foldl_kw_step_spec (code : String) (l : List String) (init : ℚ × List String) :
    (l.foldl (kw_step code) init).1 = init.1 + spec_raw_score l code
    ∧ (l.foldl (kw_step code) init).2.length = init.2.length + spec_match_count l code := by
  induction l generalizing init with
  | nil => simp [spec_raw_score, spec_match_count]
  | cons t ts ih =>
    obtain ⟨h1, h2⟩ := kw_step_spec code init t
    obtain ⟨ih1, ih2⟩ := ih (kw_step code init t)
    rw [List.foldl_cons]
    constructor
    · rw [ih1, h1]
      simp [spec_raw_score]
      ring
    · rw [ih2, h2, spec_match_count, spec_match_count, List.filter_cons]
      by_cases hc : spec_token_score code t = 0
      · simp [hc]
      · simp [hc]
        omega

/-- For a non-empty keyword list, the source's score equals the
specification's score formula. -/
theorem match_score_eq_spec (k0 : String) (ks : List String) (code : String) :
    (calculate_match_score (k0 :: ks) code).1 = spec_score (k0 :: ks) code := by
  obtain ⟨h1, h2⟩ := foldl_kw_step_spec code (k0 :: ks) (0, [])
  simp only [calculate_match_score, spec_score]
  rw [h1, h2]
  simp

/-- `insertByScore` commutes with forgetting the taxonomy index. -/
theorem insert_map_dropIdx (x : ScoredIdx) (l : List ScoredIdx) :
    insertByScore (dropIdx x) (l.map dropIdx) = (insertByScoreI x l).map dropIdx := by
  induction l with
  | nil => rfl
  | cons y ys ih =>
    simp only [List.map_cons, insertByScore, insertByScoreI, dropIdx]
    by_cases h : y.score ≤ x.score
    · simp [h, dropIdx]
    · simp only [h, if_false]
      simp only [dropIdx] at ih
      simp [ih, dropIdx]

/-- `sortByScore` commutes with forgetting the taxonomy index. -/
theorem sort_map_dropIdx (l : List ScoredIdx) :
    sortByScore (l.map dropIdx) = (sortByScoreI l).map dropIdx := by
  induction l with
  | nil => rfl
  | cons x xs ih =>
    simp only [List.map_cons, sortByScore, sortByScoreI]
    rw [ih, insert_map_dropIdx]

/-- `insertLex` permutes. -/
theorem insertLex_perm (x : ScoredIdx) (l : List ScoredIdx) :
    List.Perm (insertLex x l) (x :: l) := by
  induction l with
  | nil => exact List.Perm.refl _
  | cons y ys ih =>
    simp only [insertLex]
    by_cases h : specBefore x y
    · simp [h]
    · simp only [h, if_false]
      exact ((ih.cons y).trans (List.Perm.swap x y ys))

/-- `sortLex` permutes. -/
theorem sortLex_perm (l : List ScoredIdx) : List.Perm (sortLex l) l := by
  induction l with
  | nil => exact List.Perm.refl _
  | cons x xs ih =>
    exact (insertLex_perm x (sortLex xs)).trans (ih.cons x)

/-- When the inserted element has a smaller index than everything in the
list, stable score insertion and lexicographic insertion agree. -/
theorem insertI_eq_insertLex (x : ScoredIdx) (l : List ScoredIdx)
    (h : ∀ y ∈ l, x.idx < y.idx) :
    insertByScoreI x l = insertLex x l := by
  induction l with
  | nil => rfl
  | cons y ys ih =>
    have hxy : x.idx < y.idx := h y (List.mem_cons_self y ys)
    simp only [insertByScoreI, insertLex]
    by_cases hle : y.score ≤ x.score
    · have hsb : specBefore x y := by
        rcases lt_or_eq_of_le hle with hlt | heq
        · exact Or.inl hlt
        · exact Or.inr ⟨heq.symm, hxy⟩
      simp [hle, hsb]
    · have hsb : ¬specBefore x y := by
        intro hsb
        rcases hsb with hlt | ⟨heq, _⟩
        · exact hle hlt.le
        · exact hle heq.ge
      rw [if_neg hle, if_neg hsb, ih (fun y' hy' => h y' (List.mem_cons_of_mem _ hy'))]

/-- On a list of pairwise strictly increasing indices, the stable sort by
descending score equals the lexicographic sort (descending score, ties by
index). -/
theorem sortI_eq_sortLex (l : List ScoredIdx)
    (h : l.Pairwise (fun a b => a.idx < b.idx)) :
    sortByScoreI l = sortLex l := by
  induction l with
  | nil => rfl
  | cons x xs ih =>
    rw [List.pairwise_cons] at h
    simp only [sortByScoreI, sortLex]
    rw [ih h.2]
    exact insertI_eq_insertLex x (sortLex xs)
      (fun y hy => h.1 y ((sortLex_perm xs).mem_iff.mp hy))

/-- Forgetting the indices of the index-annotated survivors yields the
source's scored-candidate list. -/
theorem survivors_map_dropIdx (kws : List String) :
    ∀ (l : List (String × CNInfo)) (n : ℕ),
      ((List.enumFrom n l).filterMap (surv_keep kws)).map dropIdx
        = l.filterMap (scored_keep kws) := by
  intro l
  induction l with
  | nil => intro n; rfl
  | cons c rest ih =>
    intro n
    show (((n, c) :: List.enumFrom (n + 1) rest).filterMap (surv_keep kws)).map dropIdx
      = ((c :: rest).filterMap (scored_keep kws))
    rw [List.filterMap_cons, List.filterMap_cons]
    by_cases hc : 3/10 < (calculate_match_score kws c.1).1
    · simp only [surv_keep, scored_keep, hc, if_true]
      simp [dropIdx, ih (n + 1)]
    · simp only [surv_keep, scored_keep, hc, if_false]
      exact ih (n + 1)

/-- Members of the index-annotated survivors of `enumFrom n` have index
at least `n`. -/
theorem surv_idx_ge (kws : List String) :
    ∀ (l : List (String × CNInfo)) (n : ℕ) (x : ScoredIdx),
      x ∈ (List.enumFrom n l).filterMap (surv_keep kws) → n ≤ x.idx := by
  intro l
  induction l with
  | nil => intro n x hx; simp [List.enumFrom] at hx
  | cons c rest ih =>
    intro n x hx
    rw [show List.enumFrom n (c :: rest) = (n, c) :: List.enumFrom (n + 1) rest from rfl,
      List.filterMap_cons] at hx
    by_cases hc : 3/10 < (calculate_match_score kws c.1).1
    · simp only [surv_keep, hc, if_true] at hx
      rcases List.mem_cons.mp hx with h | h
      · subst h; exact Nat.le_refl n
      · exact Nat.le_of_succ_le (ih (n + 1) x h)
    · simp only [surv_keep, hc, if_false] at hx
      exact Nat.le_of_succ_le (ih (n + 1) x hx)

/-- The index-annotated survivors are pairwise strictly increasing in
taxonomy index. -/
theorem surv_pairwise (kws : List String) :
    ∀ (l : List (String × CNInfo)) (n : ℕ),
      ((List.enumFrom n l).filterMap (surv_keep kws)).Pairwise
        (fun a b => a.idx < b.idx) := by
  intro l
  induction l with
  | nil => intro n; simp [List.enumFrom]
  | cons c rest ih =>
    intro n
    rw [show List.enumFrom n (c :: rest) = (n, c) :: List.enumFrom (n + 1) rest from rfl,
      List.filterMap_cons]
    by_cases hc : 3/10 < (calculate_match_score kws c.1).1
    · simp only [surv_keep, hc, if_true]
      refine List.Pairwise.cons ?_ (ih (n + 1))
      intro y hy
      exact Nat.lt_of_succ_le (surv_idx_ge kws rest (n + 1) y hy)
    · simp only [surv_keep, hc, if_false]
      exact ih (n + 1)

/-- C6: for every non-empty token list, (a) the classifier's score for a
code equals the specification's formula — the sum over table tokens of
`+0.25` for a direct hit else `+0.10` for a 2-character chapter-prefix
hit, normalized by `min(raw / (|tokens| × 0.15), 1.0)` and boosted by
`+0.15` capped at `0.98` for ≥ 3 matches else `+0.08` capped at `0.95`
for ≥ 2 — and (b) the sorted candidate list of `classify` (candidates
scoring ≤ 0.30 discarded) equals the lexicographic arrangement of the
surviving candidates by descending score with ties broken by taxonomy
insertion order (first-listed code wins). -/
theorem c6_scoring_and_ordering (k0 : String) (ks : List String) (code : String) :
    (calculate_match_score (k0 :: ks) code).1 = spec_score (k0 :: ks) code
    ∧ sortByScore (scored_codes (k0 :: ks))
      = (sortLex (spec_survivors (k0 :: ks))).map dropIdx := by
  constructor
  · exact match_score_eq_spec k0 ks code
  · have h1 : scored_codes (k0 :: ks) = (spec_survivors (k0 :: ks)).map dropIdx := by
      rw [scored_codes, spec_survivors, survivors_map_dropIdx]
    rw [h1, sort_map_dropIdx, sortI_eq_sortLex]
    exact surv_pairwise (k0 :: ks) CN_CODE_DATABASE 0
